import Mathlib

/-!
Verification of the escalating account-lockout core and the game/telemetry
helpers of the `phishing` repository.

The lockout backend (`backend/utils/lockout.js`, `backend/controllers/...`)
is documented in `LOCKOUT.md` and `PR_SUMMARY.md` but its code is not part
of the source tree available here, so the lockout policy engine, the login
state machine, the admin unlock and the rate limiter are modelled from the
specification's words.  The telemetry service (`game-telemetry.ts`) and the
game-progression helpers are embedded directly from the TypeScript source.
-/

namespace Phishing

/-! ## Lockout policy engine -/

/-- Result of the lockout policy engine for some consecutive-failure count:
the lockout stage, the lock duration in seconds when temporary, and whether
the lock is permanent. -/
structure StagePolicy where
  stage : Nat
  durationSeconds : Option Nat
  permanent : Bool
deriving Repr, DecidableEq

/-- Modelled from the spec: `backend/utils/lockout.js` is not in the source
tree.  The stage is computed from the current consecutive-failure count
using the highest threshold met or exceeded; thresholds 3, 6, 9 give
temporary stages 1, 2, 3 with durations 1800 s, 10800 s, 86400 s, and
threshold 12 gives the permanent stage 3 with no expiry. -/
def stageOf (c : Nat) : StagePolicy :=
  if 12 ≤ c then ⟨3, none, true⟩
  else if 9 ≤ c then ⟨3, some 86400, false⟩
  else if 6 ≤ c then ⟨2, some 10800, false⟩
  else if 3 ≤ c then ⟨1, some 1800, false⟩
  else ⟨0, none, false⟩

/-! ## Account record -/

/-- Modelled from the spec: the user record's lockout-related fields
(`backend/models/user.model.js` is not in the source tree).  Timestamps are
seconds; the credential hash is absent for externally-authenticated
accounts. -/
structure Account where
  credentialHash : Option String
  consecutiveFailures : Nat
  totalFailures : Nat
  lockoutStage : Nat
  lockoutExpiresAt : Option Nat
  isPermanentlyLocked : Bool
  lastFailedAt : Option Nat
  lastSuccessAt : Option Nat
deriving Repr, DecidableEq

/-- Modelled from the spec: a temporary lock is active iff
`lockoutExpiresAt` is present and in the future. -/
def tempActive (a : Account) (now : Nat) : Bool :=
  match a.lockoutExpiresAt with
  | some t => now < t
  | none => false

/-- Modelled from the spec: remaining seconds of a temporary lock,
`max 0 (expiresAt - now)` (truncated subtraction on `Nat`). -/
def tempRemaining (a : Account) (now : Nat) : Nat :=
  match a.lockoutExpiresAt with
  | some t => t - now
  | none => 0

/-- Modelled from the spec: a lockout is active iff `isPermanentlyLocked`
is true, or `lockoutExpiresAt` is present and in the future. -/
def lockActive (a : Account) (now : Nat) : Bool :=
  a.isPermanentlyLocked || tempActive a now

/-- Modelled from the spec: stale (expired) stage and expiry fields are
cleared lazily on the next attempt, before further processing. -/
def clearStale (a : Account) : Account :=
  if a.lockoutStage = 0 ∧ a.lockoutExpiresAt = none then a
  else { a with lockoutStage := 0, lockoutExpiresAt := none }

/-! ## Credential verifier -/

/-- Modelled from the spec: the salted one-way hash of the credential
verifier, abstracted as a string encoding; its internals are outside the
lockout core, only equality of hashes matters to the login flow. -/
def hashOf (p : String) : String := p

/-- Modelled from the spec: `verify(account, suppliedPassword)`; accounts
without a local credential hash (externally authenticated) are reported as
trivially successful for lockout-flow purposes. -/
def verify (a : Account) (pwd : String) : Bool :=
  match a.credentialHash with
  | none => true
  | some h => hashOf pwd == h

/-! ## Login state machine -/

/-- Externally observable result of one login attempt. -/
inductive LoginResult where
  | success
  | tempLocked (remainingSeconds : Nat)
  | permLocked
  | invalidCredentials
  | rateLimited
deriving Repr, DecidableEq

/-- Outcome of one login attempt: the observable result, the (possibly
updated) account record when an account was resolved, whether the
credential verifier was invoked, and whether a session was issued. -/
structure AttemptOutcome where
  result : LoginResult
  account : Option Account
  verifierInvoked : Bool
  sessionIssued : Bool
deriving Repr, DecidableEq

/-- Modelled from the spec: one login attempt of the login state machine
(`backend/controllers/auth.controller.js` is not in the source tree).
Unknown identifiers yield the generic invalid-credential result; an active
permanent or temporary lock is returned without verification or mutation;
otherwise stale lock fields are cleared, the credential is verified,
success resets the counters and issues a session, and failure increments
the counters, recomputes the stage and, when the stage strictly increased,
engages the new lock (returning the lockout payload of the lock that just
engaged). -/
def loginAttempt (acct? : Option Account) (pwd : String) (now : Nat) : AttemptOutcome :=
  match acct? with
  | none => ⟨.invalidCredentials, none, false, false⟩
  | some a =>
    if a.isPermanentlyLocked then
      ⟨.permLocked, some a, false, false⟩
    else if tempActive a now then
      ⟨.tempLocked (tempRemaining a now), some a, false, false⟩
    else
      let a1 := clearStale a
      if verify a1 pwd then
        ⟨.success,
         some { a1 with consecutiveFailures := 0, lockoutStage := 0,
                        lockoutExpiresAt := none, lastSuccessAt := some now },
         true, true⟩
      else
        let c := a1.consecutiveFailures + 1
        let p := stageOf c
        let base := { a1 with consecutiveFailures := c,
                              totalFailures := a1.totalFailures + 1,
                              lastFailedAt := some now }
        if a1.lockoutStage < p.stage then
          if p.permanent then
            ⟨.permLocked,
             some { base with lockoutStage := p.stage,
                              isPermanentlyLocked := true,
                              lockoutExpiresAt := none },
             true, false⟩
          else
            ⟨.tempLocked (p.durationSeconds.getD 0),
             some { base with lockoutStage := p.stage,
                              lockoutExpiresAt := p.durationSeconds.map (fun d => now + d) },
             true, false⟩
        else
          ⟨.invalidCredentials, some base, true, false⟩

/-- Modelled from the spec: a sequence of login attempts against one
account, each attempt given as (password, time); the account record is
threaded from one attempt to the next. -/
def runAttempts (a : Account) : List (String × Nat) → List AttemptOutcome × Account
  | [] => ([], a)
  | (pwd, t) :: rest =>
    let o := loginAttempt (some a) pwd t
    let r := runAttempts (o.account.getD a) rest
    (o :: r.1, r.2)

/-! ## Admin unlock -/

/-- Modelled from the spec: `unlock(account)` unconditionally sets
`consecutiveFailures := 0`, `lockoutStage := 0`, clears `lockoutExpiresAt`
and sets `isPermanentlyLocked := false`
(`backend/controllers/admin.controller.js` is not in the source tree). -/
def unlock (a : Account) : Account :=
  { a with consecutiveFailures := 0, lockoutStage := 0,
           lockoutExpiresAt := none, isPermanentlyLocked := false }

/-! ## Attempt rate limiter -/

/-- Per-origin fixed-window rate-limit record: attempt count and window
start time. -/
structure RateWindow where
  count : Nat
  windowStart : Nat
deriving Repr, DecidableEq

/-- Modelled from the spec: fixed window counter keyed by origin address,
at most 5 attempts per 60-second window on the login endpoint; a lapsed
window is reset. Returns whether the attempt is admitted and the updated
window. -/
def rateCheck (w : Option RateWindow) (now : Nat) : Bool × RateWindow :=
  match w with
  | none => (true, ⟨1, now⟩)
  | some ⟨c, ws⟩ =>
    if ws + 60 ≤ now then (true, ⟨1, now⟩)
    else if c < 5 then (true, ⟨c + 1, ws⟩)
    else (false, ⟨c, ws⟩)

/-- Modelled from the spec: the admitted/rejected verdicts of a sequence of
attempts from one origin, threading the window state. -/
def rateSteps (w : Option RateWindow) : List Nat → List Bool × Option RateWindow
  | [] => ([], w)
  | t :: ts =>
    let s := rateCheck w t
    let r := rateSteps (some s.2) ts
    (s.1 :: r.1, r.2)

/-- Modelled from the spec: the full login flow of one request — the rate
limiter runs first and, when the budget is exceeded, the request is
rejected with the distinct rate-limit signal before any account access. -/
def loginFlow (w : Option RateWindow) (acct? : Option Account) (pwd : String) (now : Nat) :
    AttemptOutcome × RateWindow :=
  let s := rateCheck w now
  if s.1 then (loginAttempt acct? pwd now, s.2)
  else (⟨.rateLimited, acct?, false, false⟩, s.2)

/-! ## Game telemetry service (`src/game-telemetry.ts`) -/

/-- The session mode of `src/game-telemetry.ts`:
`'training' | 'reinforcement' | 'assessment'`. -/
inductive Mode where
  | training
  | reinforcement
  | assessment
deriving Repr, DecidableEq

/-- The `GameSession` interface of `src/game-telemetry.ts` (the `startTime`
timestamp is modelled in seconds). -/
structure GameSession where
  sessionId : String
  userId : String
  mode : Mode
  startTime : Nat
deriving Repr, DecidableEq

/-- JavaScript truthiness check `!userId` on a `string | null` value:
falsy exactly for `null` and for the empty string. -/
def jsFalsy (s : Option String) : Bool :=
  match s with
  | none => true
  | some v => v = ""

/-- The error raised by `startSession` of `src/game-telemetry.ts`: either
the `new Error('No user available for telemetry')` throw, or the rethrown
failure of the `POST /api/session/start` request. -/
inductive StartSessionError where
  | noUser
  | requestFailed (msg : String)
deriving Repr, DecidableEq

/-- `getFirstUser` of `src/game-telemetry.ts`: returns the `_id` of the
response of `GET /api/users/first`, and `null` when that request fails
(the error is caught). The request outcome is passed explicitly. -/
def getFirstUser (fetchOutcome : Except String String) : Option String :=
  match fetchOutcome with
  | .ok id => some id
  | .error _ => none

/-- `startSession` of `src/game-telemetry.ts`: when `userId` is falsy the
first user is substituted, and with no first user either the method throws
`'No user available for telemetry'`; otherwise the `POST /api/session/start`
outcome (session id and start time) yields the session, and a request
failure is rethrown. -/
def startSession (userId : Option String) (firstUser : Option String) (mode : Mode)
    (postOutcome : Except String (String × Nat)) : Except StartSessionError GameSession :=
  let uid : Option String :=
    if jsFalsy userId then (if jsFalsy firstUser then none else firstUser)
    else userId
  match uid with
  | none => .error .noUser
  | some u =>
    match postOutcome with
    | .ok (id, start) => .ok ⟨id, u, mode, start⟩
    | .error e => .error (.requestFailed e)

/-- `recordPopupEvent` of `src/game-telemetry.ts`: posts the event and
catches any error of the request without rethrowing. The request outcome
is passed explicitly; the value is what the caller observes. -/
def recordPopupEvent (postOutcome : Except String Unit) : Except String Unit :=
  match postOutcome with
  | .ok _ => .ok ()
  | .error _ => .ok ()

/-- `saveSessionStats` of `src/game-telemetry.ts`: posts the stats and
catches any error of the request without rethrowing. -/
def saveSessionStats (postOutcome : Except String Unit) : Except String Unit :=
  match postOutcome with
  | .ok _ => .ok ()
  | .error _ => .ok ()

/-- `saveQuizResult` of `src/game-telemetry.ts`: posts the result and
catches any error of the request without rethrowing. -/
def saveQuizResult (postOutcome : Except String Unit) : Except String Unit :=
  match postOutcome with
  | .ok _ => .ok ()
  | .error _ => .ok ()

/-! ## Game progression (`src/unnamed/part_000`) -/

/-- `GAME_ORDER` of the game-progression module. -/
def GAME_ORDER : List String :=
  ["popup-manic", "phish404", "phish-hunt", "hooked-or-cooked"]

/-- JavaScript `Array.prototype.indexOf`: index of the first occurrence,
with the `-1` sentinel modelled as `none`. -/
def indexOfFrom (g : String) : List String → Nat → Option Nat
  | [], _ => none
  | x :: xs, i => if x == g then some i else indexOfFrom g xs (i + 1)

/-- `getNextGame` of the game-progression module: `indexOf` the current
game in `GAME_ORDER`; `null` when absent or last, otherwise the element at
the following index. -/
def getNextGame (currentGame : String) : Option String :=
  match indexOfFrom currentGame GAME_ORDER 0 with
  | none => none
  | some i =>
    if i = GAME_ORDER.length - 1 then none
    else GAME_ORDER.get? (i + 1)

/-- `isFinalGame` of the game-progression module: equality with the last
element of `GAME_ORDER`. -/
def isFinalGame (currentGame : String) : Bool :=
  currentGame == (GAME_ORDER.getD (GAME_ORDER.length - 1) "")

/-! ## Theorems -/

/-- C1: the lockout policy maps consecutive-failure counts to stages by
highest threshold met: reaching exactly 3, 6, 9, 12 consecutive failures
yields stages 1, 2, 3 (temporary), 3 (permanent) with durations 1800 s,
10800 s, 86400 s and no expiry respectively; one fewer than each threshold
yields the prior stage; and the failure that reaches threshold 12 sets
`isPermanentlyLocked` on the account. -/
theorem stageOf_thresholds :
    stageOf 3 = ⟨1, some 1800, false⟩ ∧
    stageOf 6 = ⟨2, some 10800, false⟩ ∧
    stageOf 9 = ⟨3, some 86400, false⟩ ∧
    stageOf 12 = ⟨3, none, true⟩ ∧
    stageOf 2 = ⟨0, none, false⟩ ∧
    (stageOf 5).stage = 1 ∧
    (stageOf 8).stage = 2 ∧
    stageOf 11 = ⟨3, some 86400, false⟩ ∧
    (loginAttempt (some ⟨some "pw", 11, 11, 0, none, false, none, none⟩) "x" 0).account =
      some ⟨some "pw", 12, 12, 3, none, true, some 0, none⟩ := by
  decide

/-- C7: admin unlock zeroes `consecutiveFailures` and `lockoutStage`,
clears `lockoutExpiresAt`, clears `isPermanentlyLocked`; it is idempotent,
and unlocking an already-unlocked account is a no-op. -/
theorem unlock_resets_idempotent (a : Account) :
    (unlock a).consecutiveFailures = 0 ∧
    (unlock a).lockoutStage = 0 ∧
    (unlock a).lockoutExpiresAt = none ∧
    (unlock a).isPermanentlyLocked = false ∧
    unlock (unlock a) = unlock a ∧
    (a.consecutiveFailures = 0 → a.lockoutStage = 0 → a.lockoutExpiresAt = none →
      a.isPermanentlyLocked = false → unlock a = a) := by
  refine ⟨rfl, rfl, rfl, rfl, rfl, ?_⟩
  intro h1 h2 h3 h4
  cases a
  simp_all [unlock]

/-- C7 witness: unlocking a concrete already-unlocked account is a no-op. -/
theorem unlock_resets_idempotent_witness :
    unlock ⟨none, 0, 5, 0, none, false, none, none⟩ =
      ⟨none, 0, 5, 0, none, false, none, none⟩ :=
  (unlock_resets_idempotent _).2.2.2.2.2 rfl rfl rfl rfl

/-- C8: the telemetry sink operations `recordPopupEvent`,
`saveSessionStats` and `saveQuizResult` absorb any failure of the
underlying request and return normally; no error propagates to the
caller. -/
theorem sinks_absorb_errors (r : Except String Unit) :
    recordPopupEvent r = .ok () ∧
    saveSessionStats r = .ok () ∧
    saveQuizResult r = .ok () := by
  cases r <;> exact ⟨rfl, rfl, rfl⟩

/-- Clearing stale lock fields does not touch the stored credential. -/
theorem clearStale_credentialHash (a : Account) :
    (clearStale a).credentialHash = a.credentialHash := by
  unfold clearStale
  split <;> rfl

/-- Clearing stale lock fields does not touch the stored credential, so
verification is unaffected. -/
theorem verify_clearStale (a : Account) (pwd : String) :
    verify (clearStale a) pwd = verify a pwd := by
  unfold verify
  rw [clearStale_credentialHash]

/-- A permanently locked account makes one attempt return the
permanent-lock outcome with no verification and no mutation. -/
theorem loginAttempt_perm (a : Account) (pwd : String) (now : Nat)
    (h : a.isPermanentlyLocked = true) :
    loginAttempt (some a) pwd now = ⟨.permLocked, some a, false, false⟩ := by
  simp [loginAttempt, h]

/-- C2: once `isPermanentlyLocked` is true, every subsequent login attempt
(any passwords, any times) returns the permanent-lock result, never
invokes the credential verifier and never mutates the account, for the
whole sequence (an admin unlock is the only operation that clears the
flag, and it is not a login attempt). -/
theorem permLock_blocks_attempts (a : Account) (h : a.isPermanentlyLocked = true)
    (attempts : List (String × Nat)) :
    (runAttempts a attempts).2 = a ∧
    ∀ o ∈ (runAttempts a attempts).1,
      o.result = .permLocked ∧ o.verifierInvoked = false ∧ o.account = some a := by
  induction attempts with
  | nil => simp [runAttempts]
  | cons hd tl ih =>
    obtain ⟨pwd, t⟩ := hd
    have hA := loginAttempt_perm a pwd t h
    refine ⟨?_, ?_⟩
    · simpa [runAttempts, hA] using ih.1
    · intro o ho
      simp only [runAttempts, hA] at ho
      rcases List.mem_cons.mp ho with h1 | h1
      · subst h1; exact ⟨rfl, rfl, rfl⟩
      · exact ih.2 o h1

/-- C2 witness: a concrete permanently locked account is untouched by a
sequence of attempts. -/
theorem permLock_blocks_attempts_witness :
    (runAttempts ⟨some "pw", 12, 12, 3, none, true, none, none⟩
        [("pw", 5), ("x", 6)]).2 =
      ⟨some "pw", 12, 12, 3, none, true, none, none⟩ :=
  (permLock_blocks_attempts _ rfl _).1

/-- C3: when no lock is active and credential verification succeeds, the
attempt returns success, issues a session, and the resulting account has
`consecutiveFailures = 0`, `lockoutStage = 0`, `lockoutExpiresAt` cleared
and `lastSuccessAt` set to the attempt time. -/
theorem success_resets_counters (a : Account) (pwd : String) (now : Nat)
    (hlock : lockActive a now = false)
    (hv : verify a pwd = true) :
    (loginAttempt (some a) pwd now).result = .success ∧
    (loginAttempt (some a) pwd now).sessionIssued = true ∧
    ∃ a', (loginAttempt (some a) pwd now).account = some a' ∧
      a'.consecutiveFailures = 0 ∧ a'.lockoutStage = 0 ∧
      a'.lockoutExpiresAt = none ∧ a'.lastSuccessAt = some now := by
  have h1 : a.isPermanentlyLocked = false := by
    simp [lockActive] at hlock; exact hlock.1
  have h2 : tempActive a now = false := by
    simp [lockActive] at hlock; exact hlock.2
  have hv' : verify (clearStale a) pwd = true := by
    rw [verify_clearStale]; exact hv
  simp [loginAttempt, h1, h2, hv']

/-- C3 witness: a concrete account whose temporary lock has expired logs
in with the correct (trivially verified, externally-authenticated)
credential and its counters reset. -/
theorem success_resets_counters_witness :
    (loginAttempt (some ⟨none, 3, 3, 1, some 10, false, some 1, none⟩) "pw" 20).result =
      LoginResult.success :=
  (success_resets_counters ⟨none, 3, 3, 1, some 10, false, some 1, none⟩ "pw" 20
    (by decide) rfl).1

/-- C4: while a temporary lock is active, an attempt with any password
returns the temporary-lock result carrying the remaining seconds, and the
outcome leaves the account record exactly unchanged (in particular
`consecutiveFailures` is not incremented), with no verification and no
session. -/
theorem tempLock_frame (a : Account) (pwd : String) (now t : Nat)
    (hp : a.isPermanentlyLocked = false)
    (he : a.lockoutExpiresAt = some t)
    (hn : now < t) :
    loginAttempt (some a) pwd now = ⟨.tempLocked (t - now), some a, false, false⟩ := by
  have h2 : tempActive a now = true := by simp [tempActive, he, hn]
  have h3 : tempRemaining a now = t - now := by simp [tempRemaining, he]
  simp [loginAttempt, hp, h2, h3]

/-- C4 witness: a concrete temporarily locked account rejects a correct
password with the remaining 60 seconds and is unchanged. -/
theorem tempLock_frame_witness :
    loginAttempt (some ⟨none, 3, 3, 1, some 100, false, none, none⟩) "pw" 40 =
      ⟨.tempLocked 60, some ⟨none, 3, 3, 1, some 100, false, none, none⟩, false, false⟩ :=
  tempLock_frame ⟨none, 3, 3, 1, some 100, false, none, none⟩ "pw" 40 100
    rfl rfl (by decide)

/-- C5 counterexample: an unknown identifier and a resolved identifier
with a wrong password are not always observably identical — the wrong
password on an account with 2 prior consecutive failures reaches the
threshold of 3 and returns the temporary-lock payload, while the unknown
identifier returns the generic invalid-credential result. -/
theorem enumeration_counterexample :
    (loginAttempt (some ⟨some "pw", 2, 2, 0, none, false, none, none⟩) "x" 0).result ≠
      (loginAttempt none "x" 0).result := by
  decide

/-- C5 (amended): provided the resolved account has no active lock and the
failed attempt does not reach a lockout threshold (the recomputed stage is
still 0), a wrong password yields exactly the same externally observable
result as an unknown identifier — the generic invalid-credential signal. -/
theorem invalid_indistinguishable (a : Account) (pwd : String) (now : Nat)
    (hlock : lockActive a now = false)
    (hv : verify a pwd = false)
    (hc : (stageOf (a.consecutiveFailures + 1)).stage = 0) :
    (loginAttempt (some a) pwd now).result = (loginAttempt none pwd now).result ∧
    (loginAttempt (some a) pwd now).result = .invalidCredentials := by
  have h1 : a.isPermanentlyLocked = false := by
    simp [lockActive] at hlock; exact hlock.1
  have h2 : tempActive a now = false := by
    simp [lockActive] at hlock; exact hlock.2
  have hv' : verify (clearStale a) pwd = false := by
    rw [verify_clearStale]; exact hv
  have hcf : (clearStale a).consecutiveFailures = a.consecutiveFailures := by
    unfold clearStale; split <;> rfl
  have hns : ¬ (clearStale a).lockoutStage <
      (stageOf ((clearStale a).consecutiveFailures + 1)).stage := by
    rw [hcf, hc]; omega
  simp [loginAttempt, h1, h2, hv', hns]

/-- C5 witness: a fresh account with a wrong password is observably
identical to an unknown identifier. -/
theorem invalid_indistinguishable_witness :
    (loginAttempt (some ⟨some "pw", 0, 0, 0, none, false, none, none⟩) "x" 0).result =
      (loginAttempt none "x" 0).result :=
  (invalid_indistinguishable ⟨some "pw", 0, 0, 0, none, false, none, none⟩ "x" 0
    rfl (by decide) (by decide)).1

/-- C6: within one 60-second window of a fresh per-origin rate-limit
record, the first 5 login attempts pass the limiter and the 6th is
rejected with the distinct rate-limited signal; the rejection is
independent of the account and the password (so it happens before any
account access, regardless of credential correctness), returns the
account record unchanged, and invokes no verification. -/
theorem rateLimit_six (t1 t2 t3 t4 t5 t6 : Nat)
    (h2 : t2 < t1 + 60) (h3 : t3 < t1 + 60) (h4 : t4 < t1 + 60)
    (h5 : t5 < t1 + 60) (h6 : t6 < t1 + 60)
    (acct? acct?' : Option Account) (pwd pwd' : String) :
    (rateSteps none [t1, t2, t3, t4, t5]).1 = [true, true, true, true, true] ∧
    (loginFlow (rateSteps none [t1, t2, t3, t4, t5]).2 acct? pwd t6).1 =
      ⟨.rateLimited, acct?, false, false⟩ ∧
    (loginFlow (rateSteps none [t1, t2, t3, t4, t5]).2 acct? pwd t6).1.result =
      (loginFlow (rateSteps none [t1, t2, t3, t4, t5]).2 acct?' pwd' t6).1.result := by
  have n2 : ¬ (t1 + 60 ≤ t2) := by omega
  have n3 : ¬ (t1 + 60 ≤ t3) := by omega
  have n4 : ¬ (t1 + 60 ≤ t4) := by omega
  have n5 : ¬ (t1 + 60 ≤ t5) := by omega
  have n6 : ¬ (t1 + 60 ≤ t6) := by omega
  have e1 : rateSteps none [t1, t2, t3, t4, t5] =
      ([true, true, true, true, true], some ⟨5, t1⟩) := by
    simp [rateSteps, rateCheck, n2, n3, n4, n5]
  have e2 : ∀ (x : Option Account) (p : String),
      (loginFlow (some ⟨5, t1⟩) x p t6).1 = ⟨.rateLimited, x, false, false⟩ := by
    intro x p
    simp [loginFlow, rateCheck, n6]
  rw [e1]
  exact ⟨rfl, e2 acct? pwd, by rw [e2 acct? pwd, e2 acct?' pwd']⟩

/-- C6 witness: six immediate attempts from one origin — five admitted,
the sixth rejected before touching the (absent) account. -/
theorem rateLimit_six_witness :
    (loginFlow (rateSteps none [0, 0, 0, 0, 0]).2 none "" 0).1 =
      ⟨.rateLimited, none, false, false⟩ :=
  (rateLimit_six 0 0 0 0 0 0 (by decide) (by decide) (by decide) (by decide)
    (by decide) none none "" "").2.1

/-- C9: with a null `userId`, `startSession` substitutes the identity
returned by `getFirstUser`; it errors exactly when no usable fallback user
is available (the fetch failed or yielded a falsy id) or the session-start
request itself fails; and it never creates a session without a user id. -/
theorem startSession_fallback (fetch : Except String String) (mode : Mode)
    (post : Except String (String × Nat)) :
    (∀ s, startSession none (getFirstUser fetch) mode post = .ok s →
       some s.userId = getFirstUser fetch) ∧
    ((∃ e, startSession none (getFirstUser fetch) mode post = .error e) ↔
       (jsFalsy (getFirstUser fetch) = true ∨ ∃ m, post = .error m)) ∧
    (∀ s, startSession none (getFirstUser fetch) mode post = .ok s →
       s.userId ≠ "") := by
  rcases fetch with msg | id
  · rcases post with e | ⟨sid, st⟩ <;>
      simp [startSession, getFirstUser, jsFalsy]
  · by_cases hid : id = ""
    · rcases post with e | ⟨sid, st⟩ <;>
        simp [startSession, getFirstUser, jsFalsy, hid]
    · rcases post with e | ⟨sid, st⟩ <;>
        simp [startSession, getFirstUser, jsFalsy, hid]

/-- C9 witness: a concrete null-identity call substitutes the fetched
first user into the created session. -/
theorem startSession_fallback_witness :
    some (GameSession.mk "s1" "u1" Mode.training 7).userId =
      getFirstUser (.ok "u1") :=
  (startSession_fallback (.ok "u1") Mode.training (.ok ("s1", 7))).1
    ⟨"s1", "u1", Mode.training, 7⟩ rfl

/-- The only positions of `GAME_ORDER`. -/
theorem GAME_ORDER_get?_cases (i : Nat) (g : String)
    (h : GAME_ORDER.get? i = some g) :
    (i = 0 ∧ g = "popup-manic") ∨ (i = 1 ∧ g = "phish404") ∨
    (i = 2 ∧ g = "phish-hunt") ∨ (i = 3 ∧ g = "hooked-or-cooked") := by
  rcases i with _ | _ | _ | _ | i
  · exact Or.inl ⟨rfl, by injection h with h; exact h.symm⟩
  · exact Or.inr (Or.inl ⟨rfl, by injection h with h; exact h.symm⟩)
  · exact Or.inr (Or.inr (Or.inl ⟨rfl, by injection h with h; exact h.symm⟩))
  · exact Or.inr (Or.inr (Or.inr ⟨rfl, by injection h with h; exact h.symm⟩))
  · exact absurd h (by simp [GAME_ORDER])

/-- C10: `getNextGame g` is `null` exactly when `g` is not in `GAME_ORDER`
or is its last element `"hooked-or-cooked"`; otherwise it returns the
element immediately following `g` in `GAME_ORDER`; `isFinalGame g` holds
exactly when `g = "hooked-or-cooked"`, and a final game has no next
game. -/
theorem getNextGame_spec (g : String) :
    (getNextGame g = none ↔ g ∉ GAME_ORDER ∨ g = "hooked-or-cooked") ∧
    (∀ i : Nat, GAME_ORDER.get? i = some g → g ≠ "hooked-or-cooked" →
       getNextGame g = GAME_ORDER.get? (i + 1)) ∧
    (isFinalGame g = true ↔ g = "hooked-or-cooked") ∧
    (isFinalGame g = true → getNextGame g = none) := by
  by_cases hg : g ∈ GAME_ORDER
  · have hcases : g = "popup-manic" ∨ g = "phish404" ∨
        g = "phish-hunt" ∨ g = "hooked-or-cooked" := by
      simpa [GAME_ORDER] using hg
    rcases hcases with h | h | h | h <;> subst h <;>
      refine ⟨by decide, ?_, by decide, by decide⟩ <;>
      intro i hi hne <;>
      rcases GAME_ORDER_get?_cases i _ hi with ⟨h1, h2⟩ | ⟨h1, h2⟩ | ⟨h1, h2⟩ | ⟨h1, h2⟩ <;>
      first
        | exact absurd h2 (by decide)
        | exact absurd h2.symm hne
        | (subst h1; decide)
  · have hg4 : ¬ (g = "popup-manic") ∧ ¬ (g = "phish404") ∧
        ¬ (g = "phish-hunt") ∧ ¬ (g = "hooked-or-cooked") := by
      simpa [GAME_ORDER] using hg
    have hnone : getNextGame g = none := by
      simp [getNextGame, indexOfFrom, GAME_ORDER,
        Ne.symm hg4.1, Ne.symm hg4.2.1, Ne.symm hg4.2.2.1, Ne.symm hg4.2.2.2]
    refine ⟨by simp [hnone, hg], ?_, ?_, fun _ => hnone⟩
    · intro i hi hne
      rcases GAME_ORDER_get?_cases i _ hi with ⟨h1, h2⟩ | ⟨h1, h2⟩ | ⟨h1, h2⟩ | ⟨h1, h2⟩ <;>
        exact absurd h2 (by simp_all)
    · simp [isFinalGame, GAME_ORDER, hg4.2.2.2]

/-- C10 witness: the successor of the third game is the element at index
3, and the final game has no successor. -/
theorem getNextGame_spec_witness :
    getNextGame "phish-hunt" = GAME_ORDER.get? 3 :=
  (getNextGame_spec "phish-hunt").2.1 2 rfl (by decide)

end Phishing
